import Mathlib

/-!
Shallow embedding of `xact.py`: a dual-mode (decorator / context-manager)
transaction manager for Django on PostgreSQL.

The Django transaction API (`django.db.transaction`) and the psycopg2
connection are the environment of the program.  We model the per-alias
connection state (`Conn`) after Django's `transaction_state` stack, record
every API call the program issues in a trace of `TxOp` events, and let a
behaviour oracle (`Beh`) decide whether each fallible API call raises, so
that the exception paths of `_Transaction.__exit__` can be exercised.
All code of `_Transaction`, `_TransactionWrapper` and `xact` is translated
line by line from `src/xact.py`.
-/

namespace Xact

/-- Database aliases, as used by Django's `using=...` parameter. -/
abbrev Alias := String

/-- Model of `django.db.DEFAULT_DB_ALIAS`. -/
def DEFAULT_DB_ALIAS : Alias := "default"

/-- Model of `psycopg2.extensions.ISOLATION_LEVEL_AUTOCOMMIT` (numerically 0). -/
def ISOLATION_LEVEL_AUTOCOMMIT : Nat := 0

/-- Python exception types, classified by whether they are `Rollback` (from
`xact.py`) or one of its subclasses, or any other exception type. -/
inductive Exc where
  | Rollback : Exc
  | rollbackSub : String → Exc
  | other : String → Exc
  deriving Repr, DecidableEq

/-- Model of `issubclass(exc_type, Rollback)`: true for `Rollback` itself and for any
of its subclasses. -/
def issubclassRollback : Exc → Bool
  | .Rollback => true
  | .rollbackSub _ => true
  | .other _ => false

/-- One call into the Django transaction API or the psycopg2 connection, as
issued by `xact.py`.  The trace of these events is what the program does. -/
inductive TxOp where
  | savepoint : Alias → Nat → TxOp
  | enter_transaction_management : Alias → TxOp
  | managed : Bool → Alias → TxOp
  | commit : Alias → TxOp
  | rollback : Alias → TxOp
  | savepoint_commit : Nat → Alias → TxOp
  | savepoint_rollback : Nat → Alias → TxOp
  | leave_transaction_management : Alias → TxOp
  | set_isolation_level : Alias → Nat → TxOp
  deriving Repr, DecidableEq

/-- The state of the Django connection for one alias: the
`transaction_state` stack of managed flags (head is the top), a counter
producing fresh savepoint ids, the psycopg2 isolation level, and the
backend feature flag `features.uses_autocommit`. -/
structure Conn where
  txState : List Bool
  nextSid : Nat
  isolation : Nat
  uses_autocommit : Bool
  deriving Repr, DecidableEq

/-- Model of `transaction.is_managed(using)` / `connections[using].is_managed()`:
the top of the `transaction_state` stack, or `False` when the stack is
empty. -/
def Conn.is_managed (c : Conn) : Bool := c.txState.headD false

/-- Model of `transaction.enter_transaction_management(using=...)`: push a copy of
the top of the stack (or the unmanaged default when empty). -/
def Conn.enter_tm (c : Conn) : Conn :=
  { c with txState := c.txState.headD false :: c.txState }

/-- Model of `transaction.managed(flag, using=...)`: overwrite the top of the
stack with `flag`. -/
def Conn.set_managed (flag : Bool) (c : Conn) : Conn :=
  match c.txState with
  | [] => c
  | _ :: rest => { c with txState := flag :: rest }

/-- Model of `transaction.leave_transaction_management(using=...)`: pop the top of
the stack. -/
def Conn.leave_tm (c : Conn) : Conn := { c with txState := c.txState.tail }

/-- Model of `transaction.savepoint(using)`: return a fresh savepoint id and advance
the counter. -/
def Conn.mk_savepoint (c : Conn) : Nat × Conn :=
  (c.nextSid, { c with nextSid := c.nextSid + 1 })

/-- Behaviour oracle for the fallible Django API calls: for each kind of
call, whether it raises (and which exception it raises) when the program
issues it. -/
structure Beh where
  commitExc : Option Exc
  rollbackExc : Option Exc
  spCommitExc : Option Exc
  spRollbackExc : Option Exc
  deriving Repr, DecidableEq

/-- The oracle under which every API call succeeds. -/
def Beh.ok : Beh := ⟨none, none, none, none⟩

/-- Embedding of `_Transaction`: manages one transaction or savepoint block.
`usingDB` is the `using` field (the database alias); `sid` is the savepoint
id, `None` until a savepoint is created. -/
structure _Transaction where
  usingDB : Alias
  sid : Option Nat
  deriving Repr, DecidableEq

/-- Embedding of `_Transaction._leave_transaction_management`: leave transaction
management and, when the connection is no longer managed and the backend
uses autocommit, reset the psycopg2 isolation level to
`ISOLATION_LEVEL_AUTOCOMMIT` (the Django ticket 16047 workaround).
Returns the new connection state and the trace of calls issued. -/
def _Transaction._leave_transaction_management (t : _Transaction) (c : Conn) :
    Conn × List TxOp :=
  let c1 := c.leave_tm
  if !c1.is_managed && c1.uses_autocommit then
    ({ c1 with isolation := ISOLATION_LEVEL_AUTOCOMMIT },
     [TxOp.leave_transaction_management t.usingDB,
      TxOp.set_isolation_level t.usingDB ISOLATION_LEVEL_AUTOCOMMIT])
  else
    (c1, [TxOp.leave_transaction_management t.usingDB])

/-- Embedding of `_Transaction.__enter__`: if a transaction is already managed, create a
savepoint and store its id in `sid`; otherwise enter transaction
management and mark the connection managed.  Returns the updated
transaction object, the new connection state and the trace of calls. -/
def _Transaction.enter (t : _Transaction) (c : Conn) :
    _Transaction × Conn × List TxOp :=
  if c.is_managed then
    let (s, c1) := c.mk_savepoint
    ({ t with sid := some s }, c1, [TxOp.savepoint t.usingDB s])
  else
    (t, Conn.set_managed true c.enter_tm,
     [TxOp.enter_transaction_management t.usingDB, TxOp.managed true t.usingDB])

/-- Embedding of `_Transaction.__exit__(exc_type, exc_value, traceback)`.
The result is `Except.ok b` when `__exit__` returns the boolean `b`
(`True` gobbles the exception), and `Except.error e` when `__exit__`
itself raises `e`.  Fallibility of the API calls is decided by the
behaviour oracle `b`; the commit path wraps `commit` in
`try/except/finally` (rollback on failure, re-raise, always leave
management), the savepoint-commit path in `try/except`, while the
rollback paths are unguarded, exactly as in the source. -/
def _Transaction.exit (b : Beh) (t : _Transaction) (exc_type : Option Exc)
    (c : Conn) : Conn × List TxOp × Except Exc Bool :=
  match exc_type with
  | none =>
    match t.sid with
    | none =>
      match b.commitExc with
      | none =>
        let (c1, ops) := t._leave_transaction_management c
        (c1, TxOp.commit t.usingDB :: ops, Except.ok false)
      | some e =>
        match b.rollbackExc with
        | none =>
          let (c1, ops) := t._leave_transaction_management c
          (c1, TxOp.commit t.usingDB :: TxOp.rollback t.usingDB :: ops,
           Except.error e)
        | some e2 =>
          let (c1, ops) := t._leave_transaction_management c
          (c1, TxOp.commit t.usingDB :: TxOp.rollback t.usingDB :: ops,
           Except.error e2)
    | some s =>
      match b.spCommitExc with
      | none =>
        (c, [TxOp.savepoint_commit s t.usingDB], Except.ok false)
      | some e =>
        match b.spRollbackExc with
        | none =>
          (c, [TxOp.savepoint_commit s t.usingDB,
               TxOp.savepoint_rollback s t.usingDB], Except.error e)
        | some e2 =>
          (c, [TxOp.savepoint_commit s t.usingDB,
               TxOp.savepoint_rollback s t.usingDB], Except.error e2)
  | some e =>
    match t.sid with
    | none =>
      match b.rollbackExc with
      | none =>
        let (c1, ops) := t._leave_transaction_management c
        (c1, TxOp.rollback t.usingDB :: ops,
         Except.ok (issubclassRollback e))
      | some e2 =>
        (c, [TxOp.rollback t.usingDB], Except.error e2)
    | some s =>
      match b.spRollbackExc with
      | none =>
        (c, [TxOp.savepoint_rollback s t.usingDB],
         Except.ok (issubclassRollback e))
      | some e2 =>
        (c, [TxOp.savepoint_rollback s t.usingDB], Except.error e2)

/-- The outcome of a Python `with` statement whose body raised `bodyExc`
(or not) and whose `__exit__` produced `r`: `none` when control leaves the
block normally, `some e` when exception `e` propagates out of the block. -/
def withOutcome (bodyExc : Option Exc) (r : Except Exc Bool) : Option Exc :=
  match r with
  | Except.error e => some e
  | Except.ok gobbled =>
    match bodyExc with
    | none => none
    | some e => if gobbled then none else some e

/-- Semantics of `with _Transaction(...)`: a full enter / body / exit cycle on a
`_Transaction`, with `bodyExc` the exception raised by the body (if any).
Returns the transaction object as left by `__enter__`, the final
connection state, the full trace and the propagating exception. -/
def _Transaction.runWith (b : Beh) (t : _Transaction) (bodyExc : Option Exc)
    (c : Conn) : _Transaction × Conn × List TxOp × Option Exc :=
  let (t1, c1, ops1) := t.enter c
  let (c2, ops2, r) := t1.exit b bodyExc c1
  (t1, c2, ops1 ++ ops2, withOutcome bodyExc r)

/-- Embedding of `_TransactionWrapper`: wraps `_Transaction` so one class supports both
decorator and context-manager usage.  `transaction` is `None` until the
first context-manager `__enter__`. -/
structure _TransactionWrapper where
  usingDB : Alias
  transaction : Option _Transaction
  deriving Repr, DecidableEq

/-- Embedding of `_TransactionWrapper.__enter__`: create the delegate `_Transaction` on
first use, then delegate to its `__enter__`.  The same delegate object is
kept (and re-entered) on every later use of the wrapper. -/
def _TransactionWrapper.enter (w : _TransactionWrapper) (c : Conn) :
    _TransactionWrapper × Conn × List TxOp :=
  let t := match w.transaction with
           | none => _Transaction.mk w.usingDB none
           | some t0 => t0
  let (t1, c1, ops) := t.enter c
  ({ w with transaction := some t1 }, c1, ops)

/-- Embedding of `_TransactionWrapper.__exit__`: delegate to the `_Transaction`'s
`__exit__` (an `AttributeError` if the delegate was never created). -/
def _TransactionWrapper.exit (b : Beh) (w : _TransactionWrapper)
    (exc_type : Option Exc) (c : Conn) :
    _TransactionWrapper × Conn × List TxOp × Except Exc Bool :=
  match w.transaction with
  | none => (w, c, [], Except.error (Exc.other "AttributeError"))
  | some t =>
    let (c1, ops, r) := t.exit b exc_type c
    (w, c1, ops, r)

/-- Semantics of `with wrapper:`: a full enter / body / exit cycle on a
`_TransactionWrapper` used as a context manager. -/
def _TransactionWrapper.runWith (b : Beh) (w : _TransactionWrapper)
    (bodyExc : Option Exc) (c : Conn) :
    _TransactionWrapper × Conn × List TxOp × Option Exc :=
  let (w1, c1, ops1) := w.enter c
  let (w2, c2, ops2, r) := w1.exit b bodyExc c1
  (w2, c2, ops1 ++ ops2, withOutcome bodyExc r)

/-- One invocation of the `inner` closure produced by
`_TransactionWrapper.__call__`: it reads only `self.using`, constructs a
fresh `_Transaction(self.using)` and runs the body inside
`with _Transaction(self.using):`.  The wrapper itself is returned
unchanged — `inner` never reads or writes `self.transaction`. -/
def _TransactionWrapper.inner (b : Beh) (w : _TransactionWrapper)
    (bodyExc : Option Exc) (c : Conn) :
    _TransactionWrapper × Conn × List TxOp × Option Exc :=
  let (_, c1, ops, out) :=
    _Transaction.runWith b (_Transaction.mk w.usingDB none) bodyExc c
  (w, c1, ops, out)

/-- The function object returned when a `_TransactionWrapper` decorates a
callable: it remembers the wrapper's alias and the identity of the wrapped
callable. -/
structure WrappedFunc where
  usingDB : Alias
  fid : Nat
  deriving Repr, DecidableEq

/-- Embedding of `_TransactionWrapper.__call__(func)`: return `inner`, the decorated
version of `func`, closing over `self.using`. -/
def _TransactionWrapper.call (w : _TransactionWrapper) (fid : Nat) :
    WrappedFunc :=
  ⟨w.usingDB, fid⟩

/-- Calling the decorated function: each invocation constructs a fresh
`_Transaction(self.using)` (with `sid = None`) and runs the body inside
it. -/
def WrappedFunc.invoke (b : Beh) (g : WrappedFunc) (bodyExc : Option Exc)
    (c : Conn) : Conn × List TxOp × Option Exc :=
  let (_, c1, ops, out) :=
    _Transaction.runWith b (_Transaction.mk g.usingDB none) bodyExc c
  (c1, ops, out)

/-- The argument passed to `xact`: `None` (as in `@xact()` / `with xact():`),
a non-callable database alias, or a callable (bare `@xact`). -/
inductive PyArg where
  | none_ : PyArg
  | alias_ : Alias → PyArg
  | callable_ : Nat → PyArg
  deriving Repr, DecidableEq

/-- What `xact` returns: either the decorated function (bare-decorator
usage) or a `_TransactionWrapper`. -/
inductive XactResult where
  | decorated : WrappedFunc → XactResult
  | wrapper : _TransactionWrapper → XactResult
  deriving Repr, DecidableEq

/-- Embedding of `xact(using=None)`: substitute `DEFAULT_DB_ALIAS` for `None`; if the
argument is callable it is the decorated function (bare `@xact`), so wrap
it with a `_TransactionWrapper(DEFAULT_DB_ALIAS)`; otherwise return a
`_TransactionWrapper` on the given alias. -/
def xact (usingArg : PyArg) : XactResult :=
  match usingArg with
  | PyArg.none_ => XactResult.wrapper (_TransactionWrapper.mk DEFAULT_DB_ALIAS none)
  | PyArg.callable_ f =>
      XactResult.decorated ((_TransactionWrapper.mk DEFAULT_DB_ALIAS none).call f)
  | PyArg.alias_ a => XactResult.wrapper (_TransactionWrapper.mk a none)

end Xact
namespace Xact

/-- Helper: `_leave_transaction_management` always issues
`leave_transaction_management`, and issues the isolation-level reset (and
records it in the connection state) exactly when, after the pop, the
connection is unmanaged and the backend uses autocommit. -/
theorem leave_mgmt_spec (t : _Transaction) (c : Conn) :
    TxOp.leave_transaction_management t.usingDB ∈
      (t._leave_transaction_management c).2 ∧
    ((c.leave_tm).is_managed = false ∧ (c.leave_tm).uses_autocommit = true →
      TxOp.set_isolation_level t.usingDB ISOLATION_LEVEL_AUTOCOMMIT ∈
        (t._leave_transaction_management c).2 ∧
      (t._leave_transaction_management c).1.isolation =
        ISOLATION_LEVEL_AUTOCOMMIT) := by
  unfold _Transaction._leave_transaction_management
  cases hm : (c.leave_tm).is_managed <;>
    cases ha : (c.leave_tm).uses_autocommit <;>
      simp [hm, ha]

/-- C1: on a clean exit of a block entered by `_Transaction.__enter__` on a
fresh `_Transaction`, the first API call `__exit__` issues is
`transaction.commit` when the block was entered unmanaged (`sid = None`),
and `transaction.savepoint_commit` for the savepoint created at enter when
it was entered managed — unconditionally, for every behaviour of the
underlying API and every connection state (there is no dirty-flag check in
the model because the code has none). -/
theorem clean_exit_commits (b : Beh) (a : Alias) (c : Conn) :
    (((((_Transaction.mk a none).enter c).1).exit b none
        (((_Transaction.mk a none).enter c).2.1)).2.1).head? =
      some (if c.is_managed then TxOp.savepoint_commit c.nextSid a
            else TxOp.commit a) := by
  obtain ⟨bc, br, bsc, bsr⟩ := b
  cases hm : c.is_managed <;>
    cases bc <;> cases br <;> cases bsc <;> cases bsr <;>
      simp [_Transaction.enter, _Transaction.exit, Conn.mk_savepoint, hm,
        _Transaction._leave_transaction_management]

/-- C3: `_Transaction.__enter__` creates a savepoint (storing its id in
`sid`) exactly when the alias is already managed; otherwise it issues
`enter_transaction_management` followed by `managed(True)`, after which
the connection is managed, and it leaves `sid` untouched (so still `None`
on a fresh transaction). -/
theorem enter_savepoint_iff (t : _Transaction) (c : Conn) :
    (c.is_managed = true →
      (t.enter c).1.sid = some c.nextSid ∧
      (t.enter c).2.2 = [TxOp.savepoint t.usingDB c.nextSid]) ∧
    (c.is_managed = false →
      (t.enter c).2.2 = [TxOp.enter_transaction_management t.usingDB,
                         TxOp.managed true t.usingDB] ∧
      ((t.enter c).2.1).is_managed = true ∧
      (t.enter c).1.sid = t.sid) := by
  obtain ⟨st, ns, iso, ua⟩ := c
  cases st with
  | nil => simp [_Transaction.enter, Conn.is_managed, Conn.mk_savepoint,
      Conn.enter_tm, Conn.set_managed]
  | cons x rest =>
    cases x <;>
      simp [_Transaction.enter, Conn.is_managed, Conn.mk_savepoint,
        Conn.enter_tm, Conn.set_managed]

/-- Witness for C3 at a concrete unmanaged connection. -/
theorem enter_savepoint_iff_witness :
    ((_Transaction.mk "default" none).enter ⟨[], 0, 1, true⟩).2.2 =
      [TxOp.enter_transaction_management "default",
       TxOp.managed true "default"] ∧
    (((_Transaction.mk "default" none).enter ⟨[], 0, 1, true⟩).2.1).is_managed
      = true ∧
    ((_Transaction.mk "default" none).enter ⟨[], 0, 1, true⟩).1.sid = none :=
  (enter_savepoint_iff (_Transaction.mk "default" none) ⟨[], 0, 1, true⟩).2
    (by decide)

/-- C4: `xact` applied to `None` or to a non-callable alias returns a
`_TransactionWrapper` on `DEFAULT_DB_ALIAS` resp. that alias (with no
delegate transaction yet); applied to a callable it returns that callable
decorated via `_TransactionWrapper(DEFAULT_DB_ALIAS).__call__`, and each
invocation of the decorated function runs the body inside a fresh
`_Transaction` on `DEFAULT_DB_ALIAS`. -/
theorem xact_modes :
    xact PyArg.none_ =
      XactResult.wrapper (_TransactionWrapper.mk DEFAULT_DB_ALIAS none) ∧
    (∀ a : Alias, xact (PyArg.alias_ a) =
      XactResult.wrapper (_TransactionWrapper.mk a none)) ∧
    (∀ f : Nat, xact (PyArg.callable_ f) =
      XactResult.decorated (WrappedFunc.mk DEFAULT_DB_ALIAS f)) ∧
    (∀ (b : Beh) (f : Nat) (bodyExc : Option Exc) (c : Conn),
      WrappedFunc.invoke b (WrappedFunc.mk DEFAULT_DB_ALIAS f) bodyExc c =
        ((_Transaction.mk DEFAULT_DB_ALIAS none).runWith b bodyExc c).2) :=
  ⟨rfl, fun _ => rfl, fun _ => rfl, fun _ _ _ _ => rfl⟩

end Xact
namespace Xact

/-- C2: when a block entered on a fresh `_Transaction` exits because the
body raised: if it was entered unmanaged (outer block) `__exit__` issues
`transaction.rollback` first and then leaves transaction management; if it
was entered managed (nested block) it issues
`transaction.savepoint_rollback` for the savepoint created at enter.  In
both cases `__exit__` returns `issubclass(exc_type, Rollback)`, so the
exception propagates out of the `with` block unless it is a `Rollback` (or
subclass). -/
theorem exc_exit_rolls_back (b : Beh) (a : Alias) (e : Exc) (c : Conn)
    (hrb : b.rollbackExc = none) (hsprb : b.spRollbackExc = none) :
    (((((_Transaction.mk a none).enter c).1).exit b (some e)
        (((_Transaction.mk a none).enter c).2.1)).2.1).head? =
      some (if c.is_managed then TxOp.savepoint_rollback c.nextSid a
            else TxOp.rollback a) ∧
    (c.is_managed = false →
      TxOp.leave_transaction_management a ∈
        ((((_Transaction.mk a none).enter c).1).exit b (some e)
          (((_Transaction.mk a none).enter c).2.1)).2.1) ∧
    ((((_Transaction.mk a none).enter c).1).exit b (some e)
        (((_Transaction.mk a none).enter c).2.1)).2.2 =
      Except.ok (issubclassRollback e) ∧
    ((_Transaction.mk a none).runWith b (some e) c).2.2.2 =
      (if issubclassRollback e then none else some e) := by
  obtain ⟨bc, br, bsc, bsr⟩ := b
  cases br with
  | some _ => exact absurd hrb (by simp)
  | none =>
    cases bsr with
    | some _ => exact absurd hsprb (by simp)
    | none =>
      cases hm : c.is_managed <;>
        cases hr : issubclassRollback e <;>
          simp [_Transaction.enter, _Transaction.exit, _Transaction.runWith,
            Conn.mk_savepoint, hm, hr, withOutcome,
            _Transaction._leave_transaction_management] <;>
          (try (split <;> simp))

end Xact
namespace Xact

/-- Witness for C2 at a concrete input: a `Rollback` raised in an outer
block on an unmanaged connection is rolled back and swallowed. -/
theorem exc_exit_rolls_back_witness :
    ((_Transaction.mk "default" none).runWith Beh.ok (some Exc.Rollback)
      (Conn.mk [] 0 1 true)).2.2.2 = none := by
  have h := exc_exit_rolls_back Beh.ok "default" Exc.Rollback
    (Conn.mk [] 0 1 true) rfl rfl
  simpa using h.2.2.2

/-- C5: whenever the outer transaction ends (`sid = None`; both the clean
commit path — for every behaviour of commit and rollback — and the
exception path when the rollback call itself does not raise),
`leave_transaction_management` is issued for the alias; and if after the
pop the connection is no longer managed and the backend uses autocommit,
the isolation level is reset to `ISOLATION_LEVEL_AUTOCOMMIT`, both as an
issued call and in the final connection state. -/
theorem outer_exit_leaves_management (b : Beh) (t : _Transaction)
    (exc : Option Exc) (c : Conn) (hsid : t.sid = none)
    (hrb : exc = none ∨ b.rollbackExc = none) :
    TxOp.leave_transaction_management t.usingDB ∈ (t.exit b exc c).2.1 ∧
    ((c.leave_tm).is_managed = false ∧ (c.leave_tm).uses_autocommit = true →
      TxOp.set_isolation_level t.usingDB ISOLATION_LEVEL_AUTOCOMMIT ∈
        (t.exit b exc c).2.1 ∧
      ((t.exit b exc c).1).isolation = ISOLATION_LEVEL_AUTOCOMMIT) := by
  obtain ⟨bc, br, bsc, bsr⟩ := b
  cases exc with
  | none =>
    cases bc <;> cases br <;>
      simp [_Transaction.exit, hsid,
        _Transaction._leave_transaction_management] <;>
      split <;> simp_all [Conn.leave_tm, Conn.is_managed]
  | some e =>
    cases br with
    | some e2 => simp at hrb
    | none =>
      simp [_Transaction.exit, hsid,
        _Transaction._leave_transaction_management]
      split <;> simp_all [Conn.leave_tm, Conn.is_managed]

/-- Witness for C5 at a concrete input: the outer commit on a one-level
managed connection with an autocommit backend pops the stack and resets
the isolation level. -/
theorem outer_exit_leaves_management_witness :
    TxOp.leave_transaction_management "default" ∈
      ((_Transaction.mk "default" none).exit Beh.ok none
        (Conn.mk [true] 0 1 true)).2.1 ∧
    TxOp.set_isolation_level "default" ISOLATION_LEVEL_AUTOCOMMIT ∈
      ((_Transaction.mk "default" none).exit Beh.ok none
        (Conn.mk [true] 0 1 true)).2.1 ∧
    (((_Transaction.mk "default" none).exit Beh.ok none
        (Conn.mk [true] 0 1 true)).1).isolation =
      ISOLATION_LEVEL_AUTOCOMMIT := by
  have h := outer_exit_leaves_management Beh.ok (_Transaction.mk "default" none)
    none (Conn.mk [true] 0 1 true) rfl (Or.inl rfl)
  exact ⟨h.1, (h.2 ⟨by decide, by decide⟩).1, (h.2 ⟨by decide, by decide⟩).2⟩

/-- C6: decorator use and context-manager use are equivalent — one call of
the decorated function leaves the wrapper object unchanged (so every
repeated call behaves identically) and produces exactly the connection
state, trace of transaction-API operations and propagating exception of
running the body inside a fresh `_TransactionWrapper` on the same alias
used as a context manager. -/
theorem decorator_cm_equiv (b : Beh) (w : _TransactionWrapper)
    (bodyExc : Option Exc) (c : Conn) :
    (w.inner b bodyExc c).1 = w ∧
    (w.inner b bodyExc c).2 =
      ((_TransactionWrapper.mk w.usingDB none).runWith b bodyExc c).2 :=
  ⟨rfl, rfl⟩

end Xact
namespace Xact

/-- C7: a nested block is a pure savepoint block — entering while a
transaction is already managed issues only `savepoint` (leaving the
management stack and the isolation level untouched), and the matching
`__exit__` (with `sid` the savepoint, on the commit path or the rollback
path, for every behaviour) leaves the connection state completely
unchanged and issues only `savepoint_commit` / `savepoint_rollback` calls
for that savepoint: never `enter_transaction_management`,
`leave_transaction_management` or an isolation-level change. -/
theorem nested_block_frame (b : Beh) (t : _Transaction) (exc : Option Exc)
    (c : Conn) (s : Nat) (hm : c.is_managed = true) (hsid : t.sid = some s) :
    (t.enter c).2.2 = [TxOp.savepoint t.usingDB c.nextSid] ∧
    ((t.enter c).2.1).txState = c.txState ∧
    ((t.enter c).2.1).isolation = c.isolation ∧
    (t.exit b exc c).1 = c ∧
    (∀ op ∈ (t.exit b exc c).2.1,
      op = TxOp.savepoint_commit s t.usingDB ∨
      op = TxOp.savepoint_rollback s t.usingDB) := by
  obtain ⟨bc, br, bsc, bsr⟩ := b
  refine ⟨?_, ?_, ?_, ?_, ?_⟩ <;>
    cases exc <;> cases bc <;> cases br <;> cases bsc <;> cases bsr <;>
      simp [_Transaction.enter, _Transaction.exit, Conn.mk_savepoint,
        hm, hsid]

/-- Witness for C7 at a concrete input: a nested rollback block on a
managed connection touches nothing but its savepoint. -/
theorem nested_block_frame_witness :
    ((_Transaction.mk "default" (some 7)).exit Beh.ok
      (some (Exc.other "E")) (Conn.mk [true] 8 1 true)).1 =
      Conn.mk [true] 8 1 true ∧
    ((_Transaction.mk "default" (some 7)).exit Beh.ok
      (some (Exc.other "E")) (Conn.mk [true] 8 1 true)).2.1 =
      [TxOp.savepoint_rollback 7 "default"] := by
  have h := nested_block_frame Beh.ok (_Transaction.mk "default" (some 7))
    (some (Exc.other "E")) (Conn.mk [true] 8 1 true) 7 (by decide) rfl
  exact ⟨h.2.2.2.1, by decide⟩

/-- C8: when every API call succeeds, `_Transaction.__exit__` returns
`True` exactly when the exiting exception type is a subclass of
`Rollback` (and `False` on a clean exit and for every other exception);
consequently an exception raised by the body of a `with` block on a fresh
transaction propagates out of the block unless it is a `Rollback` (or
subclass), which is swallowed — after the rollback (or savepoint
rollback) for the block has been issued. -/
theorem exit_gobbles_only_rollback (b : Beh) (t : _Transaction)
    (exc : Option Exc) (c : Conn) (hb : b = Beh.ok) :
    (t.exit b exc c).2.2 =
      Except.ok (match exc with
                 | none => false
                 | some e => issubclassRollback e) ∧
    (∀ e, exc = some e →
      (match t.sid with
       | none => TxOp.rollback t.usingDB
       | some s => TxOp.savepoint_rollback s t.usingDB) ∈
        (t.exit b exc c).2.1) ∧
    (∀ a e, (_Transaction.runWith b (_Transaction.mk a none) (some e) c).2.2.2 =
      (if issubclassRollback e then none else some e)) := by
  subst hb
  obtain ⟨u, sid⟩ := t
  refine ⟨?_, ?_, ?_⟩
  · cases exc <;> cases sid <;>
      simp [_Transaction.exit, Beh.ok,
        _Transaction._leave_transaction_management]
  · intro e he
    subst he
    cases sid <;>
      simp [_Transaction.exit, Beh.ok,
        _Transaction._leave_transaction_management]
  · intro a e
    cases hm : c.is_managed <;> cases hr : issubclassRollback e <;>
      simp [_Transaction.runWith, _Transaction.enter, _Transaction.exit,
        Conn.mk_savepoint, Beh.ok, withOutcome, hm, hr,
        _Transaction._leave_transaction_management]

/-- Witness for C8 at a concrete input: a `Rollback` subclass exiting a
nested block makes `__exit__` return `True`; an ordinary exception makes
the block propagate it. -/
theorem exit_gobbles_only_rollback_witness :
    ((_Transaction.mk "default" (some 2)).exit Beh.ok
      (some (Exc.rollbackSub "MyRb")) (Conn.mk [true] 3 1 true)).2.2 =
      Except.ok true ∧
    ((_Transaction.mk "default" none).runWith Beh.ok
      (some (Exc.other "E")) (Conn.mk [] 0 1 true)).2.2.2 =
      some (Exc.other "E") := by
  have h1 := exit_gobbles_only_rollback Beh.ok
    (_Transaction.mk "default" (some 2))
    (some (Exc.rollbackSub "MyRb")) (Conn.mk [true] 3 1 true) rfl
  have h2 := exit_gobbles_only_rollback Beh.ok
    (_Transaction.mk "default" none) none (Conn.mk [] 0 1 true) rfl
  exact ⟨h1.1, by simpa using h2.2.2 "default" (Exc.other "E")⟩

end Xact
namespace Xact

/-- C9: a failing commit still cleans up.  Outer path (`sid = None`): when
`transaction.commit` raises `e`, `__exit__` issues `transaction.rollback`,
re-raises `e` (when the rollback call itself succeeds), and
`leave_transaction_management` is issued in all cases — for every
behaviour of commit and rollback, via the `finally` clause.  Nested path:
when `savepoint_commit` raises `e`, `__exit__` issues
`savepoint_rollback` for that savepoint and re-raises `e`. -/
theorem commit_failure_cleanup (b : Beh) (t : _Transaction) (c : Conn)
    (e : Exc) :
    (t.sid = none → b.commitExc = some e →
      TxOp.rollback t.usingDB ∈ (t.exit b none c).2.1 ∧
      (b.rollbackExc = none → (t.exit b none c).2.2 = Except.error e)) ∧
    (t.sid = none →
      TxOp.leave_transaction_management t.usingDB ∈ (t.exit b none c).2.1) ∧
    (∀ s, t.sid = some s → b.spCommitExc = some e → b.spRollbackExc = none →
      (t.exit b none c).2.1 =
        [TxOp.savepoint_commit s t.usingDB,
         TxOp.savepoint_rollback s t.usingDB] ∧
      (t.exit b none c).2.2 = Except.error e) := by
  obtain ⟨bc, br, bsc, bsr⟩ := b
  obtain ⟨u, sid⟩ := t
  refine ⟨?_, ?_, ?_⟩
  · intro hsid hbc
    subst hsid
    simp only at hbc
    subst hbc
    cases br <;>
      simp [_Transaction.exit, _Transaction._leave_transaction_management]
  · intro hsid
    subst hsid
    cases bc <;> cases br <;>
      simp [_Transaction.exit,
        _Transaction._leave_transaction_management] <;>
      split <;> simp
  · intro s hsid hbsc hbsr
    subst hsid
    simp only at hbsc hbsr
    subst hbsc
    subst hbsr
    simp [_Transaction.exit]

/-- Witness for C9 at a concrete input: a failing outer commit rolls back,
leaves management and re-raises; a failing savepoint commit rolls back its
savepoint and re-raises. -/
theorem commit_failure_cleanup_witness :
    (TxOp.rollback "default" ∈
      ((_Transaction.mk "default" none).exit
        (Beh.mk (some (Exc.other "boom")) none none none) none
        (Conn.mk [true] 0 1 true)).2.1 ∧
     ((_Transaction.mk "default" none).exit
        (Beh.mk (some (Exc.other "boom")) none none none) none
        (Conn.mk [true] 0 1 true)).2.2 = Except.error (Exc.other "boom")) ∧
    TxOp.leave_transaction_management "default" ∈
      ((_Transaction.mk "default" none).exit
        (Beh.mk (some (Exc.other "boom")) none none none) none
        (Conn.mk [true] 0 1 true)).2.1 ∧
    ((_Transaction.mk "other" (some 5)).exit
        (Beh.mk none none (some (Exc.other "boom")) none) none
        (Conn.mk [true] 6 1 true)).2.1 =
      [TxOp.savepoint_commit 5 "other", TxOp.savepoint_rollback 5 "other"] := by
  have h1 := commit_failure_cleanup
    (Beh.mk (some (Exc.other "boom")) none none none)
    (_Transaction.mk "default" none) (Conn.mk [true] 0 1 true)
    (Exc.other "boom")
  have h2 := commit_failure_cleanup
    (Beh.mk none none (some (Exc.other "boom")) none)
    (_Transaction.mk "other" (some 5)) (Conn.mk [true] 6 1 true)
    (Exc.other "boom")
  exact ⟨⟨(h1.1 rfl rfl).1, (h1.1 rfl rfl).2 rfl⟩, h1.2.1 rfl,
    (h2.2.2 5 rfl rfl rfl).1⟩

/-- C10: in decorator use every invocation runs a fresh
`_Transaction(self.using)` (whose `sid` starts as `None`) and never
touches the wrapper's `transaction` field (it stays whatever it was, in
particular `None`); in context-manager use the delegate `_Transaction` is
created on the wrapper's first `__enter__`, and every later `__enter__` on
that wrapper re-enters the same stored object — keeping its last `sid`
when the connection is not managed at re-entry. -/
theorem wrapper_transaction_state (b : Beh) (w : _TransactionWrapper)
    (bodyExc : Option Exc) (c : Conn) (t : _Transaction) :
    ((w.inner b bodyExc c).1 = w ∧
     (w.inner b bodyExc c).2 =
       ((_Transaction.mk w.usingDB none).runWith b bodyExc c).2) ∧
    (w.transaction = none →
      (w.enter c).1.transaction =
        some ((_Transaction.mk w.usingDB none).enter c).1) ∧
    (w.transaction = some t →
      (w.enter c).1.transaction = some ((t.enter c).1) ∧
      (c.is_managed = false → ((t.enter c).1).sid = t.sid)) := by
  refine ⟨⟨rfl, rfl⟩, ?_, ?_⟩
  · intro hw
    simp [_TransactionWrapper.enter, hw]
  · intro hw
    constructor
    · simp [_TransactionWrapper.enter, hw]
    · intro hm
      simp [_Transaction.enter, hm]

/-- Witness for C10 at a concrete input: after a nested use stored
`sid = 0`, re-entering the same wrapper's delegate on an unmanaged
connection keeps the stale savepoint id. -/
theorem wrapper_transaction_state_witness :
    ((_TransactionWrapper.mk "default"
        (some (_Transaction.mk "default" (some 0)))).enter
      (Conn.mk [] 1 1 true)).1.transaction =
      some (_Transaction.mk "default" (some 0)) := by
  have h := wrapper_transaction_state Beh.ok
    (_TransactionWrapper.mk "default"
      (some (_Transaction.mk "default" (some 0))))
    none (Conn.mk [] 1 1 true) (_Transaction.mk "default" (some 0))
  exact (h.2.2 rfl).1

end Xact
